import Mathlib

/-!
Verification of the RetroCanvas 2D physics core (`lib/physics.js`,
`lib/spacialGrid.js`, the `Vector`, `PhysicsNode` and `PhysicsConnection`
classes) against its natural-language specification.

Numbers are modelled by `ℚ`.  The JavaScript code computes a handful of
square roots (`Vector.mag`, `Vector.distance`, `Math.sqrt`) and real powers
(`Math.pow(f, dt)`); those are irrational in general, so each embedded
function takes the value of such a computation as an explicit parameter,
and theorems carry the algebraic hypothesis that ties the parameter to the
squared quantity the code feeds into the square root (`d * d = magSq v`,
`0 ≤ d`).  Everything else is translated literally from the source.
-/

/-- The `Vector` class: `{x, y}` with component-wise arithmetic. -/
structure Vec where
  x : ℚ
  y : ℚ
deriving DecidableEq

/-- `Vector.add(v1, v2)` (static form; the instance method mutates in place
with the same arithmetic). -/
def Vec.add (v w : Vec) : Vec := ⟨v.x + w.x, v.y + w.y⟩

/-- `Vector.sub(v1, v2)`. -/
def Vec.sub (v w : Vec) : Vec := ⟨v.x - w.x, v.y - w.y⟩

/-- `Vector.mult(v, n)` (vector times scalar). -/
def Vec.mult (v : Vec) (n : ℚ) : Vec := ⟨v.x * n, v.y * n⟩

/-- `Vector.div(v, n)` (vector divided by scalar; the JS throws on `n = 0`,
theorems only use it with a nonzero divisor). -/
def Vec.div (v : Vec) (n : ℚ) : Vec := ⟨v.x / n, v.y / n⟩

/-- `Vector.dot(v1, v2)`. -/
def Vec.dot (v w : Vec) : ℚ := v.x * w.x + v.y * w.y

/-- The radicand of `Vector.mag()`: `mag() = Math.sqrt(x*x + y*y)`.  The
square root itself is passed to the embedded functions as a parameter `d`
with the hypothesis `d * d = magSq v ∧ 0 ≤ d`. -/
def Vec.magSq (v : Vec) : ℚ := v.x * v.x + v.y * v.y

/-- `GameMath.clamp(value, min, max) = Math.max(min, Math.min(max, value))`. -/
def GameMath.clamp (value lo hi : ℚ) : ℚ := max lo (min hi value)

/-- JavaScript `~~q` — truncation toward zero of a number. -/
def ratTrunc (q : ℚ) : ℤ := if 0 ≤ q then ⌊q⌋ else -⌊-q⌋

/-- `GameMath.clamp` restricted to the integer indices the spatial grid
works with (the JS applies `GameMath.clamp` to the already-truncated
values). -/
def clampZ (value lo hi : ℤ) : ℤ := max lo (min hi value)

/-- The `PhysicsNode` class (the variant used by `lib/physics.js`, whose
`update` takes `(deltaTime, gravity)`).  The cosmetic `rotation` /
`rotationSpeed` fields (seeded with `Math.PI * 0.5 / radius` and never read
by the simulation) and the `name` / `parent` bookkeeping fields are
omitted; the constructor clamps `bounciness`, `airFriction` and
`surfaceFriction` into `[0, 1]`. -/
structure PhysicsNode where
  position : Vec
  prevPosition : Vec
  radius : ℚ
  mass : ℚ
  bounciness : ℚ
  airFriction : ℚ
  surfaceFriction : ℚ
  forces : Vec
  maxVelocityMagnitude : ℚ
  locked : Bool
  collider : Bool
deriving DecidableEq

/-- `PhysicsNode.#clampVelocity(maxVelocity, deltaTime)`.  `magnitude`
stands for the float computation `effectiveVelocity.mag()`. -/
def PhysicsNode.clampVelocity (n : PhysicsNode) (maxVelocity deltaTime magnitude : ℚ) : Vec :=
  let displacement := Vec.sub n.position n.prevPosition
  let effectiveVelocity := Vec.div displacement deltaTime
  if magnitude > maxVelocity then
    Vec.mult (Vec.mult effectiveVelocity (maxVelocity / magnitude)) deltaTime
  else
    displacement

/-- `PhysicsNode.update(deltaTime, gravity)`: if locked, zero the forces and
return; otherwise add `gravity * mass * 400` to the forces, integrate with
`acceleration * 0.5 * dt²` plus the clamped, air-friction-scaled Verlet
displacement.  `magnitude` stands for `effectiveVelocity.mag()` inside
`#clampVelocity` and `adjustedAirFriction` for `Math.pow(airFriction,
deltaTime)`. -/
def PhysicsNode.update (n : PhysicsNode) (deltaTime : ℚ) (gravity : Vec)
    (magnitude adjustedAirFriction : ℚ) : PhysicsNode :=
  if n.locked then { n with forces := ⟨0, 0⟩ } else
  let gravityForce := Vec.mult gravity n.mass
  let forces := Vec.add n.forces (Vec.mult gravityForce 400)
  let acceleration := Vec.div forces n.mass
  let accelerationDisplacement := Vec.mult acceleration (1/2 * deltaTime * deltaTime)
  let displacement := n.clampVelocity n.maxVelocityMagnitude deltaTime magnitude
  let displacement' : Vec := ⟨displacement.x * adjustedAirFriction,
                              displacement.y * adjustedAirFriction⟩
  let newPos := Vec.add (Vec.add n.position displacement') accelerationDisplacement
  { n with position := newPos, prevPosition := n.position, forces := ⟨0, 0⟩ }

/-- The `PhysicsConnection` class: two nodes, a resting distance and a
collider flag (`name` / `parent` bookkeeping omitted). -/
structure PhysicsConnection where
  node1 : PhysicsNode
  node2 : PhysicsNode
  restingDistance : ℚ
  collider : Bool
deriving DecidableEq

/-- `PhysicsConnection.solve()`: `dir = node1.position - node2.position`,
`currentDistance = dir.mag()` (passed here as the parameter
`currentDistance`, being a float square root in JS), `dir.normalize()`,
deviation from the resting length halved and distributed with the weights
`w1 = m2/(m1+m2)` and `w2 = m1/(m1+m2)`; `offset1 = dir * offset * w2` is
subtracted from `node1` and `offset2 = dir * offset * w1` added to `node2`,
each only when that node is not locked. -/
def PhysicsConnection.solve (c : PhysicsConnection) (currentDistance : ℚ) : PhysicsConnection :=
  let dir := Vec.sub c.node1.position c.node2.position
  let dirN := Vec.div dir currentDistance
  let deviation := currentDistance - c.restingDistance
  let offset := deviation / 2
  let totalMass := c.node1.mass + c.node2.mass
  let w1 := c.node2.mass / totalMass
  let w2 := c.node1.mass / totalMass
  let offset1 : Vec := ⟨dirN.x * offset * w2, dirN.y * offset * w2⟩
  let offset2 : Vec := ⟨dirN.x * offset * w1, dirN.y * offset * w1⟩
  let n1 := if c.node1.locked then c.node1
            else { c.node1 with position := Vec.sub c.node1.position offset1 }
  let n2 := if c.node2.locked then c.node2
            else { c.node2 with position := Vec.add c.node2.position offset2 }
  { c with node1 := n1, node2 := n2 }

/-- `PhysicsConnection.solve()` on a connection whose nodes share the same
`y` coordinate: there `dir.mag() = |x1 - x2|` exactly, so the square-root
parameter can be supplied in closed form and the solver can be iterated. -/
def PhysicsConnection.solveCollinear (c : PhysicsConnection) : PhysicsConnection :=
  c.solve |c.node1.position.x - c.node2.position.x|

/-- A line-segment edge of a `PhysicsObject`, as read by the ray-casting
point-in-shape test: the endpoint positions of one of the shape's
connections and that connection's collider flag. -/
structure ShapeEdge where
  p1 : Vec
  p2 : Vec
  collider : Bool
deriving DecidableEq

/-- The `SpatialGrid` class.  The JS `#grid` is a `#rows × #columns` array
of buckets; it is modelled as a total function from `(row, col)` to the
bucket contents (nodes are identified by a numeric id), with the bucket
bounds (`rows`, `columns`) kept alongside, so out-of-range index
computations (which crash in JS) can be reasoned about explicitly. -/
structure SpatialGrid where
  cellSize : ℚ
  width : ℚ
  height : ℚ
  buckets : ℤ × ℤ → List ℕ

/-- `#columns = Math.ceil(width / cellSize)`. -/
def SpatialGrid.columns (g : SpatialGrid) : ℤ := ⌈g.width / g.cellSize⌉

/-- `#rows = Math.ceil(height / cellSize)`. -/
def SpatialGrid.rows (g : SpatialGrid) : ℤ := ⌈g.height / g.cellSize⌉

/-- A freshly constructed grid: every bucket empty. -/
def SpatialGrid.mkEmpty (cellSize width height : ℚ) : SpatialGrid :=
  { cellSize := cellSize, width := width, height := height, buckets := fun _ => [] }

/-- The `(row, col)` bucket index computed by `SpatialGrid.insert(node)`:
`col = GameMath.clamp(~~(position.x / cellSize), 0, ~~(width / cellSize))`
and likewise for `row` with `y` and `height`. -/
def SpatialGrid.insertPos (g : SpatialGrid) (pos : Vec) : ℤ × ℤ :=
  (clampZ (ratTrunc (pos.y / g.cellSize)) 0 (ratTrunc (g.height / g.cellSize)),
   clampZ (ratTrunc (pos.x / g.cellSize)) 0 (ratTrunc (g.width / g.cellSize)))

/-- `SpatialGrid.insert(node)`: push the node into the bucket at
`insertPos` (in JS, `this.#grid[row][col].push(node)`). -/
def SpatialGrid.insert (g : SpatialGrid) (id : ℕ) (pos : Vec) : SpatialGrid :=
  { g with buckets := fun rc =>
      if rc = g.insertPos pos then g.buckets rc ++ [id] else g.buckets rc }

/-- Insert a list of nodes in order, as `Physics.#resolveCollisions` does
after `grid.clear()`. -/
def SpatialGrid.insertAll (g : SpatialGrid) (l : List (ℕ × Vec)) : SpatialGrid :=
  l.foldl (fun g p => g.insert p.1 p.2) g

/-- `SpatialGrid.getNearby(node)`: the concatenation of the buckets in the
3×3 block around `(Math.floor(y / cellSize), Math.floor(x / cellSize))`,
keeping only in-range cells. -/
def SpatialGrid.getNearby (g : SpatialGrid) (pos : Vec) : List ℕ :=
  let col := ⌊pos.x / g.cellSize⌋
  let row := ⌊pos.y / g.cellSize⌋
  ([-1, 0, 1] : List ℤ).flatMap fun i =>
    ([-1, 0, 1] : List ℤ).flatMap fun j =>
      if 0 ≤ row + i ∧ row + i < g.rows ∧ 0 ≤ col + j ∧ col + j < g.columns then
        g.buckets (row + i, col + j)
      else []

/-- The body of the `while (true)` loop of
`SpatialGrid.#getCellsForConnection`: push the current cell; stop on
reaching the end cell; otherwise take one Bresenham step.  The JS loop
breaks once its `counter` exceeds 1000; `fuel = 1000 - counter` plays that
role here (`fuel = 0` is the `counter > 1000` truncation branch). -/
def SpatialGrid.getCellsAux (x1 y1 sx sy dx dy : ℤ) (fuel : ℕ) (x0 y0 err : ℤ) :
    List (ℤ × ℤ) :=
  (x0, y0) ::
    (if x0 = x1 ∧ y0 = y1 then [] else
      let e2 := 2 * err
      let err1 := if e2 > -dy then err - dy else err
      let x0' := if e2 > -dy then x0 + sx else x0
      let err2 := if e2 < dx then err1 + dx else err1
      let y0' := if e2 < dx then y0 + sy else y0
      match fuel with
      | 0 => []
      | f + 1 => SpatialGrid.getCellsAux x1 y1 sx sy dx dy f x0' y0' err2)

/-- `SpatialGrid.#getCellsForConnection(startNode, endNode)`: integer
Bresenham walk between the cells of the two endpoint positions, capped at
1000 steps. -/
def SpatialGrid.getCellsForConnection (g : SpatialGrid) (p1 p2 : Vec) : List (ℤ × ℤ) :=
  let x0 := ⌊p1.x / g.cellSize⌋
  let y0 := ⌊p1.y / g.cellSize⌋
  let x1 := ⌊p2.x / g.cellSize⌋
  let y1 := ⌊p2.y / g.cellSize⌋
  let dx := |x1 - x0|
  let dy := |y1 - y0|
  let sx : ℤ := if x0 < x1 then 1 else -1
  let sy : ℤ := if y0 < y1 then 1 else -1
  SpatialGrid.getCellsAux x1 y1 sx sy dx dy 1000 x0 y0 (dx - dy)

/-- `SpatialGrid.getNodesForConnection(startNode, endNode)`: union of the
3×3 neighborhoods of every cell on the Bresenham path, de-duplicated
(`[...new Set(nodes)]`). -/
def SpatialGrid.getNodesForConnection (g : SpatialGrid) (p1 p2 : Vec) : List ℕ :=
  let cells := g.getCellsForConnection p1 p2
  let nodes := cells.flatMap fun cell =>
    ([-1, 0, 1] : List ℤ).flatMap fun i =>
      ([-1, 0, 1] : List ℤ).flatMap fun j =>
        if 0 ≤ cell.1 + i ∧ cell.1 + i < g.rows ∧ 0 ≤ cell.2 + j ∧ cell.2 + j < g.columns then
          g.buckets (cell.1 + i, cell.2 + j)
        else []
  nodes.dedup

/-- The mutable state of the `Physics` class that the constructor
initialises (the spatial grid is rebuilt from scratch every sub-step and is
modelled by the free-standing `SpatialGrid` above). -/
structure Physics where
  nodes : List PhysicsNode
  connections : List PhysicsConnection
  areaWidth : ℚ
  areaHeight : ℚ
  gravity : Vec
  subSteps : ℤ
  MAX_DELTA : ℚ
  responseCoef : ℚ
  biggestNodeForGrid : ℚ

/-- The `Physics` constructor:
`Physics(areaWidth, areaHeight, gravity, subSteps, responseCoef, max_delta)`
stores `subSteps` truncated by `~~`, `responseCoef` clamped by
`GameMath.clamp(responseCoef, 0, 1)`, and `biggestNodeForGrid = 10`. -/
def Physics.init (areaWidth areaHeight : ℚ) (gravity : Vec) (subSteps : ℚ)
    (responseCoef max_delta : ℚ) : Physics :=
  { nodes := []
    connections := []
    areaWidth := areaWidth
    areaHeight := areaHeight
    gravity := gravity
    subSteps := ratTrunc subSteps
    MAX_DELTA := max_delta
    responseCoef := GameMath.clamp responseCoef 0 1
    biggestNodeForGrid := 10 }

/-- The per-sub-step node loop of `Physics.update(deltaTime)`:
`for (let node of this.#nodes) { if (deltaTime > this.#MAX_DELTA) continue;
node.update(deltaTimeSubStep, this.#gravity); }`.
`nodeUpd` stands for `node => node.update(deltaTimeSubStep, gravity)`. -/
def Physics.integrateNodes (nodeUpd : PhysicsNode → PhysicsNode)
    (maxDelta deltaTime : ℚ) (nodes : List PhysicsNode) : List PhysicsNode :=
  nodes.map fun node => if deltaTime > maxDelta then node else nodeUpd node

/-- `Physics.update(deltaTime)`: `subSteps` repetitions of the node loop
followed by `#resolveConnections()` and `#resolveCollisions(dtSub)` (the
latter two abstracted into `resolvePhase`, which does not depend on the
`deltaTime > MAX_DELTA` test). -/
def Physics.updateLoop (nodeUpd : PhysicsNode → PhysicsNode)
    (resolvePhase : List PhysicsNode → List PhysicsNode)
    (maxDelta deltaTime : ℚ) (subSteps : ℕ) (nodes : List PhysicsNode) : List PhysicsNode :=
  (fun ns => resolvePhase (Physics.integrateNodes nodeUpd maxDelta deltaTime ns))^[subSteps] nodes

/-- `Physics.#resolveCollisionNodeNode(node1, node2)`.  `sqrtDist2` stands
for `Math.sqrt(dist2)`.  The `onCollision` notification hooks are no-ops.
Returns the updated `(node1, node2)` pair. -/
def Physics.resolveCollisionNodeNode (areaWidth areaHeight responseCoef : ℚ)
    (node1 node2 : PhysicsNode) (sqrtDist2 : ℚ) : PhysicsNode × PhysicsNode :=
  if !node1.collider || !node2.collider then (node1, node2) else
  if node1.locked && node2.locked then (node1, node2) else
  let difference := Vec.sub node1.position node2.position
  let minDist := node1.radius + node2.radius
  let distance := GameMath.clamp sqrtDist2 1 (areaWidth + areaHeight)
  let n := Vec.div difference distance
  let avgBounciness := (node1.bounciness + node2.bounciness) / 2 * 10
  let delta := 1/2 * responseCoef * (distance - minDist) * (1 + avgBounciness)
  if node1.locked then
    (node1, { node2 with position := Vec.add node2.position (Vec.mult n delta) })
  else if node2.locked then
    ({ node1 with position := Vec.sub node1.position (Vec.mult n delta) }, node2)
  else
    let massRatio1 := node1.mass / (node1.mass + node2.mass)
    let massRatio2 := node2.mass / (node1.mass + node2.mass)
    ({ node1 with position := Vec.sub node1.position (Vec.mult n (massRatio2 * delta)) },
     { node2 with position := Vec.add node2.position (Vec.mult n (massRatio1 * delta)) })

/-- `Physics.#closestPointOnConnection(point, start, end)`: clamped
projection of `point` on the segment.  The JS computes the squared segment
length as `distance(start, end) * distance(start, end)`, which is exactly
`magSq(end - start)` in real arithmetic. -/
def Physics.closestPointOnConnection (point s e : Vec) : Vec :=
  let lengthSquared := Vec.magSq (Vec.sub e s)
  if lengthSquared = 0 then s
  else
    let t := GameMath.clamp (Vec.dot (Vec.sub point s) (Vec.sub e s) / lengthSquared) 0 1
    Vec.add s (Vec.mult (Vec.sub e s) t)

/-- `Physics.#resolveCollisionNodeConnection(node, connection)`.  The float
square roots are parameters: `distToClosest` for
`node.position.distance(closestPoint)`, `dirMag` for `direction.mag()`,
`distTo1` / `distTo2` for the distances from the node to the two connection
endpoints.  Returns the updated `(node, node1, node2)`. -/
def Physics.resolveCollisionNodeConnection (responseCoef : ℚ)
    (node n1 n2 : PhysicsNode) (distToClosest dirMag distTo1 distTo2 : ℚ) :
    PhysicsNode × PhysicsNode × PhysicsNode :=
  let closestPoint := Physics.closestPointOnConnection node.position n1.position n2.position
  let overlap := node.radius - distToClosest
  if overlap ≤ 0 then (node, n1, n2) else
  let direction := Vec.sub closestPoint node.position
  if dirMag < 1/1000000 then (node, n1, n2) else
  let directionN := Vec.div direction dirMag
  let avgBounciness := (node.bounciness + n1.bounciness + n2.bounciness) / 3 * 10
  let overlap' := overlap * (1 + avgBounciness) * responseCoef
  let nodeBias := node.mass
  let parentBias := n1.mass + n2.mass
  let totalBias := nodeBias + parentBias
  let nodeAdjustment := overlap' * parentBias / totalBias
  let physicsObjectAdjustment := overlap' * nodeBias / totalBias
  let totalDistance := distTo1 + distTo2
  let proportionForNode1 := distTo2 / totalDistance
  let proportionForNode2 := distTo1 / totalDistance
  let nodePos := Vec.sub node.position (Vec.mult directionN nodeAdjustment)
  let n1Pos := Vec.add n1.position (Vec.mult directionN (physicsObjectAdjustment * proportionForNode1))
  let n2Pos := Vec.add n2.position (Vec.mult directionN (physicsObjectAdjustment * proportionForNode2))
  let node' := if node.locked then node else { node with position := nodePos }
  let n1' := if n1.locked then n1 else { n1 with position := n1Pos }
  let n2' := if n2.locked then n2 else { n2 with position := n2Pos }
  (node', n1', n2')

/-- `Physics.#checkCollisionNodeShape(node, shape)`: even-odd ray cast to
the right across the shape's collider edges; a locked node is reported as
outside immediately. -/
def Physics.checkCollisionNodeShape (node : PhysicsNode) (edges : List ShapeEdge) : Bool :=
  if node.locked then false else
  let intersectCount := edges.countP fun c =>
    (decide (c.p1.y > node.position.y) != decide (c.p2.y > node.position.y)) && c.collider &&
      decide (node.position.x <
        c.p1.x + (node.position.y - c.p1.y) * (c.p2.x - c.p1.x) / (c.p2.y - c.p1.y))
  decide (intersectCount % 2 ≠ 0)

/-- The ground branch of `Physics.#checkCollisionWithBoundary`: if
`position.y + radius >= areaHeight`, push the node up by
`overlap * (1 + bounciness)`, reflect `velocity.y` with the bounciness,
scale `velocity.x` by `adjustedSurfaceFriction` and rebuild
`prevPosition = position - velocity`. -/
def Physics.boundaryStepGround (areaHeight adjustedSurfaceFriction : ℚ)
    (s : PhysicsNode × Vec) : PhysicsNode × Vec :=
  let node := s.1
  let velocity := s.2
  if node.position.y + node.radius ≥ areaHeight then
    let overlap := node.position.y + node.radius - areaHeight
    let p : Vec := ⟨node.position.x, node.position.y - overlap * (1 + node.bounciness)⟩
    let v : Vec := ⟨velocity.x * adjustedSurfaceFriction, velocity.y * (-node.bounciness)⟩
    ({ node with position := p, prevPosition := Vec.sub p v }, v)
  else s

/-- The ceiling branch of `Physics.#checkCollisionWithBoundary`. -/
def Physics.boundaryStepCeiling (s : PhysicsNode × Vec) : PhysicsNode × Vec :=
  let node := s.1
  let velocity := s.2
  if node.position.y - node.radius ≤ 0 then
    let overlap := node.radius - node.position.y
    let p : Vec := ⟨node.position.x, node.position.y + overlap * (1 + node.bounciness)⟩
    let v : Vec := ⟨velocity.x, velocity.y * (-node.bounciness)⟩
    ({ node with position := p, prevPosition := Vec.sub p v }, v)
  else s

/-- The left-boundary branch of `Physics.#checkCollisionWithBoundary`. -/
def Physics.boundaryStepLeft (s : PhysicsNode × Vec) : PhysicsNode × Vec :=
  let node := s.1
  let velocity := s.2
  if node.position.x - node.radius ≤ 0 then
    let overlap := node.radius - node.position.x
    let p : Vec := ⟨node.position.x + overlap * (1 + node.bounciness), node.position.y⟩
    let v : Vec := ⟨velocity.x * (-node.bounciness), velocity.y⟩
    ({ node with position := p, prevPosition := Vec.sub p v }, v)
  else s

/-- The right-boundary branch of `Physics.#checkCollisionWithBoundary`. -/
def Physics.boundaryStepRight (areaWidth : ℚ) (s : PhysicsNode × Vec) : PhysicsNode × Vec :=
  let node := s.1
  let velocity := s.2
  if node.position.x + node.radius ≥ areaWidth then
    let overlap := node.position.x + node.radius - areaWidth
    let p : Vec := ⟨node.position.x - overlap * (1 + node.bounciness), node.position.y⟩
    let v : Vec := ⟨velocity.x * (-node.bounciness), velocity.y⟩
    ({ node with position := p, prevPosition := Vec.sub p v }, v)
  else s

/-- `Physics.#checkCollisionWithBoundary(node, deltaTime)`: the four
boundary branches in source order (ground, ceiling, left, right), each
reading the position and velocity left by the previous branch; the initial
velocity is `position - prevPosition`.  `adjustedSurfaceFriction` stands
for `Math.pow(node.surfaceFriction, deltaTime)`.  The locked flag is never
consulted. -/
def Physics.checkCollisionWithBoundary (areaWidth areaHeight : ℚ)
    (adjustedSurfaceFriction : ℚ) (node : PhysicsNode) : PhysicsNode :=
  (Physics.boundaryStepRight areaWidth
    (Physics.boundaryStepLeft
      (Physics.boundaryStepCeiling
        (Physics.boundaryStepGround areaHeight adjustedSurfaceFriction
          (node, Vec.sub node.position node.prevPosition))))).1

/-- An argument passed to `Physics.removePhysicsNode`: either a
`PhysicsNode` reference (identified by id, JS compares references) or any
other value, which fails the `instanceof PhysicsNode` guard. -/
inductive JSArg where
  | node (id : ℕ)
  | notANode
deriving DecidableEq

/-- JavaScript `Array.prototype.indexOf`: index of the first occurrence,
`-1` when absent. -/
def jsIndexOf : List ℕ → ℕ → ℤ
  | [], _ => -1
  | a :: t, n =>
      if a = n then 0
      else
        let r := jsIndexOf t n
        if r = -1 then -1 else r + 1

/-- `Physics.removePhysicsNode(node)`: throw if the argument is not a
`PhysicsNode`; otherwise look it up with `indexOf` and `splice(index, 1)`
it out, or throw if it is absent.  The result pairs the thrown message (if
any) with the node list after the call (the JS mutates `this.#nodes` only
in the success branch). -/
def Physics.removePhysicsNode (nodes : List ℕ) (arg : JSArg) : Option String × List ℕ :=
  match arg with
  | .notANode => (some "node must be an instance of PhysicsNode.", nodes)
  | .node n =>
      let index := jsIndexOf nodes n
      if index ≠ -1 then (none, nodes.eraseIdx index.toNat)
      else (some "The specified node does not exist in the physics simulation.", nodes)

/-- A `PhysicsNode` with the constructor's default `radius = 5`, zero
initial velocity (`prevPosition = position`), `bounciness = 0`, unit
friction coefficients (chosen inside the legal `[0,1]` range so that
`Math.pow(f, dt) = 1` exactly) and default `maxVelocity = 100`.  Concrete
test configurations below are built from it. -/
def mkNode (pos : Vec) (mass : ℚ) (locked : Bool) : PhysicsNode :=
  { position := pos, prevPosition := pos, radius := 5, mass := mass, bounciness := 0,
    airFriction := 1, surfaceFriction := 1, forces := ⟨0, 0⟩,
    maxVelocityMagnitude := 100, locked := locked, collider := true }

/-- A connection between two unlocked nodes of masses `m1`, `m2` placed on
the x-axis at distance `rest + delta`, with resting distance `rest`. -/
def connLine (m1 m2 rest delta : ℚ) : PhysicsConnection :=
  ⟨mkNode ⟨0, 0⟩ m1 false, mkNode ⟨rest + delta, 0⟩ m2 false, rest, true⟩

/-- `n` repeated calls of `PhysicsConnection.solve()` (in the exactly
representable collinear configuration). -/
def solveIter (c : PhysicsConnection) (n : ℕ) : PhysicsConnection :=
  (PhysicsConnection.solveCollinear)^[n] c

/-- Signed x-axis gap between the two endpoints of a connection; on the
collinear configurations used below it equals the inter-node distance. -/
def nodeGap (c : PhysicsConnection) : ℚ :=
  c.node2.position.x - c.node1.position.x

/-- Concrete connection exhibiting the `w1`/`w2` application swap in
`solve()`: mass-1 node at the origin, mass-3 node at `(10, 0)`, resting
distance 5, so the current distance is exactly 10. -/
def swapDemoConn : PhysicsConnection :=
  ⟨mkNode ⟨0, 0⟩ 1 false, mkNode ⟨10, 0⟩ 3 false, 5, true⟩

/-- The spec's node-node scenario: two unlocked, equal-mass, radius-5,
bounciness-0 nodes at center distance 6. -/
def c4NodeA : PhysicsNode := mkNode ⟨0, 0⟩ 1 false

/-- Second node of the node-node scenario. -/
def c4NodeB : PhysicsNode := mkNode ⟨6, 0⟩ 1 false

/-- A locked node resting exactly on the ground boundary of a 100×100
area. -/
def lockedBoundaryNode : PhysicsNode := mkNode ⟨50, 100⟩ 1 true

/-- On a collinear (equal `y`) configuration the distance parameter used by
`solveCollinear` satisfies exactly the defining property of `dir.mag()`. -/
theorem solveCollinear_mag_sound (c : PhysicsConnection)
    (h : c.node1.position.y = c.node2.position.y) :
    |c.node1.position.x - c.node2.position.x| *
      |c.node1.position.x - c.node2.position.x| =
      Vec.magSq (Vec.sub c.node1.position c.node2.position) ∧
    0 ≤ |c.node1.position.x - c.node2.position.x| := by
  constructor
  · simp [Vec.magSq, Vec.sub, h, abs_mul_abs_self]
  · exact abs_nonneg _

/-- Claim C1: `PhysicsConnection.solve()` applies the weights to the wrong nodes.
With node1 of mass 1 at `(0,0)` and node2 of mass 3 at `(10,0)` (current
distance exactly 10, resting distance 5, `offset = 5/2`), the code moves
node1 by `offset * m1/(m1+m2) = 5/8` and node2 by `offset * m2/(m1+m2) =
15/8` — each node is weighted by its *own* mass over total mass, the
opposite of the source comments ("weight of node1 is based on mass of
node2") and of the claim — and the mass-weighted corrections do not
cancel: `m1*deltaP1 + m2*deltaP2 = (-5, 0) ≠ 0`. -/
theorem solve_mass_weight_swap :
    (10 : ℚ) * 10 =
      Vec.magSq (Vec.sub swapDemoConn.node1.position swapDemoConn.node2.position) ∧
    (swapDemoConn.solve 10).node1.position = ⟨5/8, 0⟩ ∧
    (swapDemoConn.solve 10).node2.position = ⟨65/8, 0⟩ ∧
    Vec.add
        (Vec.mult (Vec.sub (swapDemoConn.solve 10).node1.position
          swapDemoConn.node1.position) 1)
        (Vec.mult (Vec.sub (swapDemoConn.solve 10).node2.position
          swapDemoConn.node2.position) 3) ≠ ⟨0, 0⟩ := by
  refine ⟨?_, ?_, ?_, ?_⟩ <;>
    norm_num [swapDemoConn, mkNode, PhysicsConnection.solve, Vec.sub, Vec.add,
      Vec.mult, Vec.div, Vec.magSq, Vec.mk.injEq]

/-- If `deltaTime > MAX_DELTA`, the node loop of `Physics.update` leaves
every node untouched (`continue` fires on every iteration). -/
theorem integrateNodes_skip (nodeUpd : PhysicsNode → PhysicsNode) (maxDelta deltaTime : ℚ)
    (h : maxDelta < deltaTime) (nodes : List PhysicsNode) :
    Physics.integrateNodes nodeUpd maxDelta deltaTime nodes = nodes := by
  simp [Physics.integrateNodes, if_pos h]

/-- Claim C2 (amended): when `deltaTime > MAX_DELTA` the integration phase is
skipped outright for every node in every sub-step; the whole
`update(deltaTime)` call degenerates to `subSteps` applications of the
connection/collision resolution phase alone. -/
theorem update_skips_integration_beyond_max_delta
    (nodeUpd : PhysicsNode → PhysicsNode)
    (resolvePhase : List PhysicsNode → List PhysicsNode)
    (maxDelta deltaTime : ℚ) (subSteps : ℕ) (nodes : List PhysicsNode)
    (h : maxDelta < deltaTime) :
    Physics.integrateNodes nodeUpd maxDelta deltaTime nodes = nodes ∧
    Physics.updateLoop nodeUpd resolvePhase maxDelta deltaTime subSteps nodes =
      resolvePhase^[subSteps] nodes := by
  refine ⟨integrateNodes_skip _ _ _ h _, ?_⟩
  have key : (fun ns => resolvePhase (Physics.integrateNodes nodeUpd maxDelta deltaTime ns)) =
      resolvePhase := by
    funext ns
    rw [integrateNodes_skip _ _ _ h]
  simp only [Physics.updateLoop]
  rw [key]

/-- Closed instance of the amended C2 statement. -/
theorem update_skips_integration_beyond_max_delta_witness :
    (9/200 : ℚ) < 1/5 ∧
    Physics.updateLoop id id (9/200) (1/5) 3 [mkNode ⟨50, 50⟩ 1 false] =
      id^[3] [mkNode ⟨50, 50⟩ 1 false] :=
  ⟨by norm_num,
   (update_skips_integration_beyond_max_delta id id (9/200) (1/5) 3
     [mkNode ⟨50, 50⟩ 1 false] (by norm_num)).2⟩

/-- Claim C2 (counterexample to the claim as stated): with `deltaTime = 1/5 >
MAX_DELTA = 0.045` and `subSteps = 2` (so `deltaTimeSubStep = 1/10`), the
node loop returns the resting node at `(50, 50)` unchanged, although
`node.update(1/10, (0, 9.81))` would have moved it to `(50, 69.62)`: node
integration is skipped outright, not capped.  (The square-root parameter 0
is exact here: the node's Verlet displacement is the zero vector, and
`airFriction = 1` makes `Math.pow(airFriction, dt) = 1`.) -/
theorem integration_skipped_counterexample :
    Physics.integrateNodes (fun m => m.update (1/10) ⟨0, 981/100⟩ 0 1) (9/200) (1/5)
        [mkNode ⟨50, 50⟩ 1 false] = [mkNode ⟨50, 50⟩ 1 false] ∧
    ((mkNode ⟨50, 50⟩ 1 false).update (1/10) ⟨0, 981/100⟩ 0 1).position ≠
      (mkNode ⟨50, 50⟩ 1 false).position ∧
    (0 : ℚ) * 0 = Vec.magSq (Vec.div (Vec.sub (mkNode ⟨50, 50⟩ 1 false).position
      (mkNode ⟨50, 50⟩ 1 false).prevPosition) (1/10)) := by
  refine ⟨?_, ?_, ?_⟩
  · norm_num [Physics.integrateNodes]
  · norm_num [mkNode, PhysicsNode.update, PhysicsNode.clampVelocity, Vec.add, Vec.sub,
      Vec.mult, Vec.div, Vec.mk.injEq]
  · norm_num [mkNode, Vec.magSq, Vec.div, Vec.sub]

/-- Claim C3 (counterexample): the constructor stores
`GameMath.clamp(responseCoef, 0, 1)`, so the documented legal value 1.5 is
stored as 1, not honored. -/
theorem responseCoef_clamp_counterexample :
    (Physics.init 100 100 ⟨0, 981/100⟩ 2 (3/2) (9/200)).responseCoef = 1 ∧
    (1 : ℚ) ≠ 3/2 := by
  constructor
  · have h1 : min (1 : ℚ) (3/2) = 1 := min_eq_left (by norm_num)
    simp [Physics.init, GameMath.clamp, h1]
  · norm_num

/-- Claim C3 (amended): responseCoef values in `[0.5, 1]` are stored (and hence
used by collision resolution) exactly; values in `(1, 1.5]` are clamped
down to 1 by the constructor. -/
theorem responseCoef_honored_up_to_one (aw ah ss rc md : ℚ) (g : Vec) :
    (1/2 ≤ rc → rc ≤ 1 → (Physics.init aw ah g ss rc md).responseCoef = rc) ∧
    (1 < rc → rc ≤ 3/2 → (Physics.init aw ah g ss rc md).responseCoef = 1) := by
  constructor
  · intro h1 h2
    have hmin : min (1 : ℚ) rc = rc := min_eq_right h2
    have hmax : max (0 : ℚ) rc = rc := max_eq_right (le_trans (by norm_num) h1)
    simp [Physics.init, GameMath.clamp, hmin, hmax]
  · intro h1 _
    have hmin : min (1 : ℚ) rc = 1 := min_eq_left (le_of_lt h1)
    simp [Physics.init, GameMath.clamp, hmin]

/-- Closed instance of the amended C3 statement at `responseCoef = 3/4`
(the default) and at `3/2`. -/
theorem responseCoef_honored_witness :
    ((1/2 : ℚ) ≤ 3/4 ∧ (3/4 : ℚ) ≤ 1 ∧
      (Physics.init 100 100 ⟨0, 981/100⟩ 2 (3/4) (9/200)).responseCoef = 3/4) ∧
    ((1 : ℚ) < 3/2 ∧ (3/2 : ℚ) ≤ 3/2 ∧
      (Physics.init 100 100 ⟨0, 981/100⟩ 2 (3/2) (9/200)).responseCoef = 1) :=
  ⟨⟨by norm_num, by norm_num,
     (responseCoef_honored_up_to_one 100 100 2 (3/4) (9/200) ⟨0, 981/100⟩).1
       (by norm_num) (by norm_num)⟩,
   ⟨by norm_num, by norm_num,
     (responseCoef_honored_up_to_one 100 100 2 (3/2) (9/200) ⟨0, 981/100⟩).2
       (by norm_num) (by norm_num)⟩⟩

/-- Claim C4 (counterexample): for the spec's configuration (radius 5 each,
equal masses, bounciness 0, default `responseCoef = 0.75`, center distance
exactly 6, so `sqrt(dist2) = 6`), one `#resolveCollisionNodeNode` pass
moves the nodes to `(-3/4, 0)` and `(27/4, 0)`: the resulting distance is
15/2 = 7.5, far below `radius1 + radius2 - ε = 10 - ε`. -/
theorem nodeNode_pass_leaves_overlap :
    (6 : ℚ) * 6 = Vec.magSq (Vec.sub c4NodeA.position c4NodeB.position) ∧
    (Physics.resolveCollisionNodeNode 100 100 (3/4) c4NodeA c4NodeB 6).1.position =
      ⟨-3/4, 0⟩ ∧
    (Physics.resolveCollisionNodeNode 100 100 (3/4) c4NodeA c4NodeB 6).2.position =
      ⟨27/4, 0⟩ ∧
    (27/4 : ℚ) - (-3/4) = 15/2 ∧
    (15/2 : ℚ) < c4NodeA.radius + c4NodeB.radius - 1 := by
  refine ⟨?_, ?_, ?_, by norm_num, ?_⟩ <;>
    norm_num [c4NodeA, c4NodeB, mkNode, Physics.resolveCollisionNodeNode, GameMath.clamp,
      Vec.sub, Vec.add, Vec.mult, Vec.div, Vec.magSq, Vec.mk.injEq]

/-- Claim C4 (amended): for two colliding, unlocked, equal-mass, bounciness-0
circular nodes whose center distance `d` lies in the clamp-neutral range
`[1, areaWidth + areaHeight]`, one `#resolveCollisionNodeNode` pass scales
the separation vector by `(d + responseCoef*(r1 + r2 - d)/2) / d`: only the
fraction `responseCoef/2` of the overlap is recovered per pass (7.5 out of
the needed 10 in the spec's instance), never essentially all of it. -/
theorem nodeNode_resolution_fraction (aw ah coef d : ℚ) (n1 n2 : PhysicsNode)
    (hc1 : n1.collider = true) (hc2 : n2.collider = true)
    (hl1 : n1.locked = false) (hl2 : n2.locked = false)
    (hm : n1.mass = n2.mass) (hm0 : n1.mass ≠ 0)
    (hb1 : n1.bounciness = 0) (hb2 : n2.bounciness = 0)
    (hd : d * d = Vec.magSq (Vec.sub n1.position n2.position))
    (hd1 : 1 ≤ d) (hd2 : d ≤ aw + ah) :
    Vec.sub (Physics.resolveCollisionNodeNode aw ah coef n1 n2 d).2.position
        (Physics.resolveCollisionNodeNode aw ah coef n1 n2 d).1.position =
      Vec.mult (Vec.sub n2.position n1.position)
        ((d + coef * (n1.radius + n2.radius - d) / 2) / d) ∧
    Vec.magSq (Vec.sub (Physics.resolveCollisionNodeNode aw ah coef n1 n2 d).2.position
        (Physics.resolveCollisionNodeNode aw ah coef n1 n2 d).1.position) =
      (d + coef * (n1.radius + n2.radius - d) / 2) ^ 2 := by
  have hd0 : d ≠ 0 := (lt_of_lt_of_le zero_lt_one hd1).ne'
  have hn2 : n2.mass ≠ 0 := by
    rw [← hm]
    exact hm0
  have hmass : n2.mass + n2.mass ≠ 0 := by
    intro hcon
    apply hn2
    linarith
  have hcl : GameMath.clamp d 1 (aw + ah) = d := by
    rw [GameMath.clamp, min_eq_right hd2, max_eq_right hd1]
  have hmain : Vec.sub (Physics.resolveCollisionNodeNode aw ah coef n1 n2 d).2.position
      (Physics.resolveCollisionNodeNode aw ah coef n1 n2 d).1.position =
      Vec.mult (Vec.sub n2.position n1.position)
        ((d + coef * (n1.radius + n2.radius - d) / 2) / d) := by
    simp only [Physics.resolveCollisionNodeNode, hc1, hc2, hl1, hl2, hcl, hb1, hb2,
      Bool.not_true, Bool.false_or, Bool.or_self, Bool.false_and, Bool.and_self,
      if_neg (Bool.false_ne_true), Bool.and_false]
    simp [Vec.sub, Vec.add, Vec.mult, Vec.div, Vec.mk.injEq, hm]
    constructor <;> (field_simp; ring)
  refine ⟨hmain, ?_⟩
  rw [hmain]
  have sq : ∀ (v : Vec) (k : ℚ), Vec.magSq (Vec.mult v k) = Vec.magSq v * (k * k) := by
    intro v k
    simp [Vec.magSq, Vec.mult]
    ring
  rw [sq]
  have hsum2 : Vec.magSq (Vec.sub n2.position n1.position) = d * d := by
    simp only [Vec.magSq, Vec.sub] at hd ⊢
    linear_combination -hd
  rw [hsum2]
  field_simp
  ring

/-- Closed instance of the amended C4 statement at the spec's
configuration: the post-pass squared distance is `(15/2)²`, i.e. the
distance is 7.5. -/
theorem nodeNode_resolution_fraction_witness :
    Vec.magSq (Vec.sub (Physics.resolveCollisionNodeNode 100 100 (3/4) c4NodeA c4NodeB 6).2.position
        (Physics.resolveCollisionNodeNode 100 100 (3/4) c4NodeA c4NodeB 6).1.position) =
      ((6 : ℚ) + 3/4 * (c4NodeA.radius + c4NodeB.radius - 6) / 2) ^ 2 ∧
    ((6 : ℚ) + 3/4 * (c4NodeA.radius + c4NodeB.radius - 6) / 2) = 15/2 :=
  ⟨(nodeNode_resolution_fraction 100 100 (3/4) 6 c4NodeA c4NodeB rfl rfl rfl rfl rfl
      (by norm_num [c4NodeA, mkNode]) rfl rfl
      (by norm_num [c4NodeA, c4NodeB, mkNode, Vec.magSq, Vec.sub])
      (by norm_num) (by norm_num)).2,
   by norm_num [c4NodeA, c4NodeB, mkNode]⟩

/-- Claim C5 (counterexample): `#checkCollisionWithBoundary` never consults the
locked flag.  A locked node of radius 5 resting at `(50, 100)` on the
ground of a 100×100 area is moved to `(50, 95)` by the ground branch.
(`surfaceFriction = 1` makes `Math.pow(surfaceFriction, dt) = 1`
exactly.) -/
theorem boundary_moves_locked_node :
    lockedBoundaryNode.locked = true ∧
    (Physics.checkCollisionWithBoundary 100 100 1 lockedBoundaryNode).position =
      ⟨50, 95⟩ ∧
    (Physics.checkCollisionWithBoundary 100 100 1 lockedBoundaryNode).position ≠
      lockedBoundaryNode.position := by
  refine ⟨rfl, ?_, ?_⟩ <;>
    norm_num [lockedBoundaryNode, mkNode, Physics.checkCollisionWithBoundary,
      Physics.boundaryStepGround, Physics.boundaryStepCeiling, Physics.boundaryStepLeft,
      Physics.boundaryStepRight, Vec.sub, Vec.mk.injEq]

/-- Claim C5 (amended): a locked node is never moved by integration
(`PhysicsNode.update`), by `PhysicsConnection.solve` (in either endpoint
slot), by node-node resolution (in either slot), by node-connection
resolution (as the colliding node or as either connection endpoint), and
the solid-shape ejection can never fire on it because
`#checkCollisionNodeShape` reports a locked node as outside; only
`#checkCollisionWithBoundary` ignores the locked flag and can move it. -/
theorem locked_node_invariance
    (node other n1 n2 : PhysicsNode) (aw ah coef d dt magV aaf dc dm d1 d2 rest : ℚ)
    (g : Vec) (col : Bool) (edges : List ShapeEdge)
    (h : node.locked = true) :
    (node.update dt g magV aaf).position = node.position ∧
    ((PhysicsConnection.mk node other rest col).solve d).node1.position = node.position ∧
    ((PhysicsConnection.mk other node rest col).solve d).node2.position = node.position ∧
    (Physics.resolveCollisionNodeNode aw ah coef node other d).1.position = node.position ∧
    (Physics.resolveCollisionNodeNode aw ah coef other node d).2.position = node.position ∧
    (Physics.resolveCollisionNodeConnection coef node n1 n2 dc dm d1 d2).1.position =
      node.position ∧
    (Physics.resolveCollisionNodeConnection coef other node n2 dc dm d1 d2).2.1.position =
      node.position ∧
    (Physics.resolveCollisionNodeConnection coef other n1 node dc dm d1 d2).2.2.position =
      node.position ∧
    Physics.checkCollisionNodeShape node edges = false := by
  refine ⟨?_, ?_, ?_, ?_, ?_, ?_, ?_, ?_, ?_⟩
  · simp [PhysicsNode.update, h]
  · simp [PhysicsConnection.solve, h]
  · simp [PhysicsConnection.solve, h]
  · simp only [Physics.resolveCollisionNodeNode, h]
    split_ifs <;> simp_all
  · simp only [Physics.resolveCollisionNodeNode, h]
    split_ifs <;> simp_all
  · simp only [Physics.resolveCollisionNodeConnection, h]
    split_ifs <;> simp
  · simp only [Physics.resolveCollisionNodeConnection, h]
    split_ifs <;> simp
  · simp only [Physics.resolveCollisionNodeConnection, h]
    split_ifs <;> simp
  · simp [Physics.checkCollisionNodeShape, h]

/-- Closed instance of the amended C5 statement at a concrete locked
node. -/
theorem locked_node_invariance_witness :
    (mkNode ⟨30, 40⟩ 2 true).locked = true ∧
    ((mkNode ⟨30, 40⟩ 2 true).update (1/60) ⟨0, 981/100⟩ 0 1).position =
      (mkNode ⟨30, 40⟩ 2 true).position ∧
    Physics.checkCollisionNodeShape (mkNode ⟨30, 40⟩ 2 true)
      [⟨⟨0, 0⟩, ⟨60, 0⟩, true⟩, ⟨⟨60, 0⟩, ⟨30, 80⟩, true⟩, ⟨⟨30, 80⟩, ⟨0, 0⟩, true⟩] = false := by
  have h := locked_node_invariance (mkNode ⟨30, 40⟩ 2 true) (mkNode ⟨3, 4⟩ 1 false)
    (mkNode ⟨0, 0⟩ 1 false) (mkNode ⟨60, 0⟩ 1 false) 100 100 (3/4) 6 (1/60) 0 1 2 1 5 5 7
    ⟨0, 981/100⟩ true
    [⟨⟨0, 0⟩, ⟨60, 0⟩, true⟩, ⟨⟨60, 0⟩, ⟨30, 80⟩, true⟩, ⟨⟨30, 80⟩, ⟨0, 0⟩, true⟩] rfl
  exact ⟨rfl, h.1, h.2.2.2.2.2.2.2.2⟩

/-- Claim C7: when `width` is an exact multiple of `cellSize`, `insert` clamps
the column to `~~(width / cellSize)`, which equals `columns =
Math.ceil(width / cellSize)` — one past the last allocated column index.
For a 100×100 grid with `cellSize = 20` (the default `Physics` grid) and a
node at `(100, 50)`, the computed bucket is `(row, col) = (2, 5)` while the
allocated columns are `0..4`: the bucket does not exist, and the JS
`this.#grid[2][5].push(node)` throws. -/
theorem insert_bucket_out_of_range :
    (SpatialGrid.mkEmpty 20 100 100).insertPos ⟨100, 50⟩ = (2, 5) ∧
    (SpatialGrid.mkEmpty 20 100 100).columns = 5 ∧
    ¬ (((SpatialGrid.mkEmpty 20 100 100).insertPos ⟨100, 50⟩).2 <
        (SpatialGrid.mkEmpty 20 100 100).columns) := by
  have h1 : ratTrunc ((50 : ℚ) / 20) = 2 := by
    rw [ratTrunc, if_pos (by norm_num)]
    norm_num [Int.floor_eq_iff]
  have h2 : ratTrunc ((100 : ℚ) / 20) = 5 := by
    rw [ratTrunc, if_pos (by norm_num)]
    norm_num
  have h3 : (⌈(100 : ℚ) / 20⌉ : ℤ) = 5 := by
    norm_num
  refine ⟨?_, ?_, ?_⟩ <;>
    simp [SpatialGrid.mkEmpty, SpatialGrid.insertPos, SpatialGrid.columns, clampZ,
      h1, h2, h3, Prod.ext_iff]

/-- One `solve()` call on a collinear configuration with both nodes
unlocked: whatever the masses, the weights `w1 + w2 = 1` make the gap
contract to `(gap + restingDistance) / 2`, and the configuration stays
collinear with all solver-relevant fields preserved. -/
theorem solveCollinear_step (c : PhysicsConnection)
    (hy1 : c.node1.position.y = 0) (hy2 : c.node2.position.y = 0)
    (hl1 : c.node1.locked = false) (hl2 : c.node2.locked = false)
    (hlt : c.node1.position.x < c.node2.position.x)
    (hmass : c.node1.mass + c.node2.mass ≠ 0) :
    (c.solveCollinear.node2.position.x - c.solveCollinear.node1.position.x =
      (c.node2.position.x - c.node1.position.x + c.restingDistance) / 2) ∧
    c.solveCollinear.node1.position.y = 0 ∧
    c.solveCollinear.node2.position.y = 0 ∧
    c.solveCollinear.node1.locked = false ∧
    c.solveCollinear.node2.locked = false ∧
    c.solveCollinear.node1.mass = c.node1.mass ∧
    c.solveCollinear.node2.mass = c.node2.mass ∧
    c.solveCollinear.restingDistance = c.restingDistance := by
  have hne : c.node2.position.x - c.node1.position.x ≠ 0 :=
    ne_of_gt (sub_pos.mpr hlt)
  have habs : |c.node1.position.x - c.node2.position.x| =
      c.node2.position.x - c.node1.position.x := by
    rw [abs_sub_comm]
    exact abs_of_pos (sub_pos.mpr hlt)
  simp only [PhysicsConnection.solveCollinear, PhysicsConnection.solve, habs, hl1, hl2,
    Bool.false_eq_true, if_false, hy1, hy2]
  simp [Vec.sub, Vec.add, Vec.div, hy1, hy2]
  field_simp
  ring

/-- Iterating `solve()` on the x-axis configuration: after `n` calls the
gap is exactly `rest + delta / 2^n`, the configuration stays collinear,
unlocked, and keeps its masses and resting distance. -/
theorem solveIter_gap (m1 m2 rest delta : ℚ) (hrest : 0 ≤ rest) (hdelta : 0 < delta)
    (hmass : m1 + m2 ≠ 0) : ∀ n : ℕ,
    (solveIter (connLine m1 m2 rest delta) n).node1.position.y = 0 ∧
    (solveIter (connLine m1 m2 rest delta) n).node2.position.y = 0 ∧
    (solveIter (connLine m1 m2 rest delta) n).node1.locked = false ∧
    (solveIter (connLine m1 m2 rest delta) n).node2.locked = false ∧
    (solveIter (connLine m1 m2 rest delta) n).node1.mass = m1 ∧
    (solveIter (connLine m1 m2 rest delta) n).node2.mass = m2 ∧
    (solveIter (connLine m1 m2 rest delta) n).restingDistance = rest ∧
    (solveIter (connLine m1 m2 rest delta) n).node2.position.x -
      (solveIter (connLine m1 m2 rest delta) n).node1.position.x =
        rest + delta / 2 ^ n := by
  intro n
  induction n with
  | zero =>
      refine ⟨rfl, rfl, rfl, rfl, rfl, rfl, rfl, ?_⟩
      simp [solveIter, connLine, mkNode]
  | succ k ih =>
      obtain ⟨hy1, hy2, hl1, hl2, hma, hmb, hr, hgap⟩ := ih
      have hlt : (solveIter (connLine m1 m2 rest delta) k).node1.position.x <
          (solveIter (connLine m1 m2 rest delta) k).node2.position.x := by
        have hpos : 0 < delta / 2 ^ k := by positivity
        have := hgap
        nlinarith
      have hmass' : (solveIter (connLine m1 m2 rest delta) k).node1.mass +
          (solveIter (connLine m1 m2 rest delta) k).node2.mass ≠ 0 := by
        rw [hma, hmb]
        exact hmass
      have hstep := solveCollinear_step (solveIter (connLine m1 m2 rest delta) k)
        hy1 hy2 hl1 hl2 hlt hmass'
      have hiter : solveIter (connLine m1 m2 rest delta) (k + 1) =
          (solveIter (connLine m1 m2 rest delta) k).solveCollinear := by
        simp [solveIter, Function.iterate_succ_apply']
      rw [hiter]
      refine ⟨hstep.2.1, hstep.2.2.1, hstep.2.2.2.1, hstep.2.2.2.2.1, ?_, ?_, ?_, ?_⟩
      · rw [hstep.2.2.2.2.2.1, hma]
      · rw [hstep.2.2.2.2.2.2.1, hmb]
      · rw [hstep.2.2.2.2.2.2.2, hr]
      · rw [hstep.1, hgap, hr]
        rw [pow_succ]
        ring

/-- Claim C6: for a single connection between two unlocked nodes of masses `m1`,
`m2` placed `restingDistance + delta` apart on the x-axis, `n` repeated
`solve()` calls leave the inter-node distance at exactly
`restingDistance + delta / 2^n`: the distance decreases strictly
monotonically, stays above `restingDistance` (converging to it), and a
single call yields exactly `restingDistance + delta / 2`. -/
theorem connection_solve_convergence (m1 m2 rest delta : ℚ)
    (hm1 : 0 < m1) (hm2 : 0 < m2) (hrest : 0 ≤ rest) (hdelta : 0 < delta) (n : ℕ) :
    nodeGap (solveIter (connLine m1 m2 rest delta) n) = rest + delta / 2 ^ n ∧
    (solveIter (connLine m1 m2 rest delta) n).node1.position.y = 0 ∧
    (solveIter (connLine m1 m2 rest delta) n).node2.position.y = 0 ∧
    rest < nodeGap (solveIter (connLine m1 m2 rest delta) n) ∧
    nodeGap (solveIter (connLine m1 m2 rest delta) (n + 1)) <
      nodeGap (solveIter (connLine m1 m2 rest delta) n) ∧
    nodeGap (solveIter (connLine m1 m2 rest delta) 1) = rest + delta / 2 := by
  have hmass : m1 + m2 ≠ 0 := by positivity
  have h := solveIter_gap m1 m2 rest delta hrest hdelta hmass
  have hn := h n
  have hn1 := h (n + 1)
  have h1 := h 1
  have hpos : 0 < delta / 2 ^ n := by positivity
  have hhalf : delta / 2 ^ (n + 1) < delta / 2 ^ n := by
    rw [pow_succ]
    rw [div_mul_eq_div_div]
    exact half_lt_self hpos
  refine ⟨hn.2.2.2.2.2.2.2, hn.1, hn.2.1, ?_, ?_, ?_⟩
  · rw [nodeGap, hn.2.2.2.2.2.2.2]
    linarith
  · rw [nodeGap, nodeGap, hn.2.2.2.2.2.2.2, hn1.2.2.2.2.2.2.2]
    linarith
  · rw [nodeGap, h1.2.2.2.2.2.2.2]
    norm_num

/-- Closed instance of C6 with `m1 = m2 = 1`, `delta = 10`,
`restingDistance = 5`: one `solve()` leaves distance exactly 10
(`rest + delta/2`), and after 24 iterations the distance is within `1e-6`
of the resting distance. -/
theorem connection_solve_convergence_witness :
    nodeGap (solveIter (connLine 1 1 5 10) 1) = 10 ∧
    |nodeGap (solveIter (connLine 1 1 5 10) 24) - 5| < 1 / 1000000 := by
  have h1 := (connection_solve_convergence 1 1 5 10 (by norm_num) (by norm_num)
    (by norm_num) (by norm_num) 1).1
  have h24 := (connection_solve_convergence 1 1 5 10 (by norm_num) (by norm_num)
    (by norm_num) (by norm_num) 24).1
  constructor
  · rw [h1]
    norm_num
  · rw [h24]
    have heq : ((5 : ℚ) + 10 / 2 ^ 24 - 5) = 10 / 2 ^ 24 := by ring
    rw [heq, abs_of_pos (by positivity)]
    norm_num

/-- `insert` puts the node into the bucket at its computed index. -/
theorem mem_insert_self (g : SpatialGrid) (id : ℕ) (pos : Vec) :
    id ∈ (g.insert id pos).buckets (g.insertPos pos) := by
  simp [SpatialGrid.insert]

/-- `insert` only appends, so bucket membership is preserved. -/
theorem mem_insert_mono (g : SpatialGrid) (id x : ℕ) (pos : Vec) (rc : ℤ × ℤ)
    (h : x ∈ g.buckets rc) : x ∈ (g.insert id pos).buckets rc := by
  simp only [SpatialGrid.insert]
  split_ifs <;> simp [h]

/-- Folding a list of inserts preserves bucket membership. -/
theorem mem_insertAll_mono (l : List (ℕ × Vec)) : ∀ (g : SpatialGrid) (x : ℕ) (rc : ℤ × ℤ),
    x ∈ g.buckets rc → x ∈ (g.insertAll l).buckets rc := by
  induction l with
  | nil => intro g x rc h; exact h
  | cons a t ih =>
      intro g x rc h
      exact ih (g.insert a.1 a.2) x rc (mem_insert_mono g a.1 x a.2 rc h)

/-- After inserting the whole list, each inserted node is in the bucket at
its computed index (the index computation only depends on the grid's
immutable geometry fields). -/
theorem mem_insertAll_self (l : List (ℕ × Vec)) : ∀ (g : SpatialGrid) (id : ℕ) (pos : Vec),
    (id, pos) ∈ l → id ∈ (g.insertAll l).buckets (g.insertPos pos) := by
  induction l with
  | nil => intro g id pos h; cases h
  | cons a t ih =>
      intro g id pos h
      rcases List.mem_cons.mp h with heq | ht
      · have : a = (id, pos) := heq.symm
        subst this
        exact mem_insertAll_mono t (g.insert id pos) id (g.insertPos pos)
          (mem_insert_self g id pos)
      · exact ih (g.insert a.1 a.2) id pos ht

/-- `insertAll` never changes the grid geometry fields. -/
theorem insertAll_fields (l : List (ℕ × Vec)) : ∀ g : SpatialGrid,
    (g.insertAll l).cellSize = g.cellSize ∧ (g.insertAll l).width = g.width ∧
    (g.insertAll l).height = g.height := by
  induction l with
  | nil => intro g; exact ⟨rfl, rfl, rfl⟩
  | cons a t ih => intro g; exact ih (g.insert a.1 a.2)

/-- If a bucket index is in range and within one cell of the floor cell of
`pos` on both axes, `getNearby pos` includes that whole bucket. -/
theorem getNearby_complete (g : SpatialGrid) (pos : Vec) (r c : ℤ) (x : ℕ)
    (hr0 : 0 ≤ r) (hr : r < g.rows) (hc0 : 0 ≤ c) (hc : c < g.columns)
    (hri : |r - ⌊pos.y / g.cellSize⌋| ≤ 1) (hci : |c - ⌊pos.x / g.cellSize⌋| ≤ 1)
    (hx : x ∈ g.buckets (r, c)) : x ∈ g.getNearby pos := by
  simp only [SpatialGrid.getNearby, List.mem_flatMap]
  refine ⟨r - ⌊pos.y / g.cellSize⌋, ?_, c - ⌊pos.x / g.cellSize⌋, ?_, ?_⟩
  · have := abs_le.mp hri
    simp only [List.mem_cons, List.mem_singleton]
    omega
  · have := abs_le.mp hci
    simp only [List.mem_cons, List.mem_singleton]
    omega
  · have hrow : ⌊pos.y / g.cellSize⌋ + (r - ⌊pos.y / g.cellSize⌋) = r := by ring
    have hcol : ⌊pos.x / g.cellSize⌋ + (c - ⌊pos.x / g.cellSize⌋) = c := by ring
    rw [hrow, hcol, if_pos ⟨hr0, hr, hc0, hc⟩]
    exact hx

/-- Claim C8: if `B` was inserted into an existing bucket lying in the 3×3 block
of cells centered on the cell containing `A`'s position, `getNearby(A)`
returns a list containing `B`. -/
theorem getNearby_no_false_negatives (cs w h : ℚ) (l : List (ℕ × Vec))
    (idA idB : ℕ) (posA posB : Vec)
    (_hA : (idA, posA) ∈ l) (hB : (idB, posB) ∈ l)
    (hr0 : 0 ≤ ((SpatialGrid.mkEmpty cs w h).insertPos posB).1)
    (hr : ((SpatialGrid.mkEmpty cs w h).insertPos posB).1 < (SpatialGrid.mkEmpty cs w h).rows)
    (hc0 : 0 ≤ ((SpatialGrid.mkEmpty cs w h).insertPos posB).2)
    (hc : ((SpatialGrid.mkEmpty cs w h).insertPos posB).2 < (SpatialGrid.mkEmpty cs w h).columns)
    (hri : |((SpatialGrid.mkEmpty cs w h).insertPos posB).1 - ⌊posA.y / cs⌋| ≤ 1)
    (hci : |((SpatialGrid.mkEmpty cs w h).insertPos posB).2 - ⌊posA.x / cs⌋| ≤ 1) :
    idB ∈ ((SpatialGrid.mkEmpty cs w h).insertAll l).getNearby posA := by
  have hfields := insertAll_fields l (SpatialGrid.mkEmpty cs w h)
  have hmem := mem_insertAll_self l (SpatialGrid.mkEmpty cs w h) idB posB hB
  refine getNearby_complete _ posA ((SpatialGrid.mkEmpty cs w h).insertPos posB).1
    ((SpatialGrid.mkEmpty cs w h).insertPos posB).2 idB hr0 ?_ hc0 ?_ ?_ ?_ ?_
  · rw [SpatialGrid.rows, hfields.1, hfields.2.2]
    exact hr
  · rw [SpatialGrid.columns, hfields.1, hfields.2.1]
    exact hc
  · rw [hfields.1]
    exact hri
  · rw [hfields.1]
    exact hci
  · exact hmem

/-- Closed instance of C8 on a 100×100 grid with cell size 20: the node
inserted at `(30, 10)` (bucket `(0, 1)`) is reported by `getNearby` for the
node at `(10, 10)` (cell `(0, 0)`). -/
theorem getNearby_no_false_negatives_witness :
    (1 : ℕ) ∈ ((SpatialGrid.mkEmpty 20 100 100).insertAll
      [(0, ⟨10, 10⟩), (1, ⟨30, 10⟩)]).getNearby ⟨10, 10⟩ := by
  have e1 : ratTrunc ((10 : ℚ) / 20) = 0 := by
    rw [ratTrunc, if_pos (by norm_num)]
    norm_num [Int.floor_eq_iff]
  have e2 : ratTrunc ((30 : ℚ) / 20) = 1 := by
    rw [ratTrunc, if_pos (by norm_num)]
    rw [Int.floor_eq_iff]
    norm_num
  have e3 : ratTrunc ((100 : ℚ) / 20) = 5 := by
    rw [ratTrunc, if_pos (by norm_num)]
    norm_num
  have e4 : (⌊(10 : ℚ) / 20⌋ : ℤ) = 0 := by
    rw [Int.floor_eq_iff]
    norm_num
  have hpos : (SpatialGrid.mkEmpty 20 100 100).insertPos ⟨30, 10⟩ = (0, 1) := by
    simp [SpatialGrid.mkEmpty, SpatialGrid.insertPos, clampZ, e1, e2, e3, Prod.ext_iff]
  have hrows : (SpatialGrid.mkEmpty 20 100 100).rows = 5 := by
    simp [SpatialGrid.mkEmpty, SpatialGrid.rows]
    norm_num
  have hcols : (SpatialGrid.mkEmpty 20 100 100).columns = 5 := by
    simp [SpatialGrid.mkEmpty, SpatialGrid.columns]
    norm_num
  refine getNearby_no_false_negatives 20 100 100 [(0, ⟨10, 10⟩), (1, ⟨30, 10⟩)]
    0 1 ⟨10, 10⟩ ⟨30, 10⟩ (by simp) (by simp) ?_ ?_ ?_ ?_ ?_ ?_ <;>
    rw [hpos] <;>
    simp [hrows, hcols, e4]

/-- Each unit of fuel admits one Bresenham step, so the cell list has at
most `fuel + 1` entries. -/
theorem getCellsAux_length (x1 y1 sx sy dx dy : ℤ) : ∀ (fuel : ℕ) (x0 y0 err : ℤ),
    (SpatialGrid.getCellsAux x1 y1 sx sy dx dy fuel x0 y0 err).length ≤ fuel + 1 := by
  intro fuel
  induction fuel with
  | zero =>
      intro x0 y0 err
      rw [SpatialGrid.getCellsAux]
      split_ifs <;> simp
  | succ f ih =>
      intro x0 y0 err
      rw [SpatialGrid.getCellsAux]
      split_ifs with hend
      · simp
      · simp only [List.length_cons]
        have := ih (if 2 * err > -dy then x0 + sx else x0)
          (if 2 * err < dx then y0 + sy else y0)
          (if 2 * err < dx then (if 2 * err > -dy then err - dy else err) + dx
           else (if 2 * err > -dy then err - dy else err))
        omega

/-- Claim C9: the Bresenham traversal behind `getNodesForConnection` is capped:
for every pair of endpoint positions the walked cell list has at most
1001 entries (1000 steps past the initial cell), so the traversal always
terminates with a finite, truncated-if-necessary path, and
`getNodesForConnection` returns a finite duplicate-free list. -/
theorem getCellsForConnection_capped (g : SpatialGrid) (p1 p2 : Vec) :
    (g.getCellsForConnection p1 p2).length ≤ 1001 ∧
    (g.getNodesForConnection p1 p2).Nodup := by
  constructor
  · exact getCellsAux_length _ _ _ _ _ _ 1000 _ _ _
  · exact List.nodup_dedup _

/-- `jsIndexOf` never returns anything below `-1`. -/
theorem jsIndexOf_ge (n : ℕ) : ∀ l : List ℕ, -1 ≤ jsIndexOf l n := by
  intro l
  induction l with
  | nil => simp [jsIndexOf]
  | cons a t ih =>
      simp only [jsIndexOf]
      split_ifs <;> omega

/-- `indexOf` returns `-1` exactly for absent elements. -/
theorem jsIndexOf_eq_neg_one_iff (n : ℕ) : ∀ l : List ℕ, jsIndexOf l n = -1 ↔ n ∉ l := by
  intro l
  induction l with
  | nil => simp [jsIndexOf]
  | cons a t ih =>
      by_cases ha : a = n
      · subst ha
        simp [jsIndexOf]
      · simp only [jsIndexOf]
        rw [if_neg ha]
        by_cases ht : jsIndexOf t n = -1
        · rw [if_pos ht]
          simp [ha, Ne.symm ha, ih.mp ht]
        · have hge := jsIndexOf_ge n t
          have hmem : n ∈ t := by
            by_contra hcon
            exact ht (ih.mpr hcon)
          rw [if_neg ht]
          have hne : ¬(jsIndexOf t n + 1 = -1) := by omega
          simp [hne, hmem]

/-- `indexOf` of a present element: the list splits at the first
occurrence and the returned index is the length of the prefix before
it. -/
theorem jsIndexOf_spec (n : ℕ) : ∀ l : List ℕ, n ∈ l →
    ∃ l₁ l₂, l = l₁ ++ n :: l₂ ∧ n ∉ l₁ ∧ jsIndexOf l n = l₁.length := by
  intro l
  induction l with
  | nil => intro h; cases h
  | cons a t ih =>
      intro h
      by_cases ha : a = n
      · subst ha
        refine ⟨[], t, rfl, by simp, ?_⟩
        simp [jsIndexOf]
      · have hmem : n ∈ t := by
          rcases List.mem_cons.mp h with heq | ht
          · exact absurd heq.symm ha
          · exact ht
        obtain ⟨l₁, l₂, hsplit, hnot, hidx⟩ := ih hmem
        refine ⟨a :: l₁, l₂, by rw [hsplit]; rfl, ?_, ?_⟩
        · simp [hnot, Ne.symm ha]
        · rw [jsIndexOf, if_neg ha, hidx]
          have : ((l₁.length : ℤ)) ≠ -1 := by omega
          rw [if_neg this]
          simp

/-- Erasing at the index right after a prefix removes exactly the element
there. -/
theorem eraseIdx_after_prefix (n : ℕ) (l₂ : List ℕ) : ∀ l₁ : List ℕ,
    (l₁ ++ n :: l₂).eraseIdx l₁.length = l₁ ++ l₂ := by
  intro l₁
  induction l₁ with
  | nil => simp [List.eraseIdx]
  | cons a t ih => simp [List.eraseIdx, ih]

/-- Claim C10: `removePhysicsNode(node)` throws exactly when the argument is not
a `PhysicsNode` or is absent from the node list; on a throw the list is
left untouched, and on success exactly the first occurrence of the node is
spliced out, preserving the relative order of every other entry. -/
theorem removePhysicsNode_spec (nodes : List ℕ) (arg : JSArg) :
    (∀ msg, (Physics.removePhysicsNode nodes arg).1 = some msg →
      (Physics.removePhysicsNode nodes arg).2 = nodes) ∧
    (arg = JSArg.notANode → (Physics.removePhysicsNode nodes arg).1 ≠ none) ∧
    (∀ n, arg = JSArg.node n →
      ((Physics.removePhysicsNode nodes arg).1 = none ↔ n ∈ nodes)) ∧
    (∀ n, arg = JSArg.node n → n ∈ nodes →
      ∃ l₁ l₂, nodes = l₁ ++ n :: l₂ ∧ n ∉ l₁ ∧
        (Physics.removePhysicsNode nodes arg).2 = l₁ ++ l₂) := by
  refine ⟨?_, ?_, ?_, ?_⟩
  · intro msg h
    cases arg with
    | notANode => rfl
    | node n =>
        simp only [Physics.removePhysicsNode] at h ⊢
        split_ifs with hidx
        · rw [if_pos hidx] at h
          cases h
        · rfl
  · intro h
    subst h
    simp [Physics.removePhysicsNode]
  · intro n h
    subst h
    simp only [Physics.removePhysicsNode]
    by_cases hidx : jsIndexOf nodes n = -1
    · rw [if_neg (by simpa using hidx)]
      simp [(jsIndexOf_eq_neg_one_iff n nodes).mp hidx]
    · rw [if_pos hidx]
      have hmem : n ∈ nodes := by
        by_contra hcon
        exact hidx ((jsIndexOf_eq_neg_one_iff n nodes).mpr hcon)
      simp [hmem]
  · intro n h hmem
    subst h
    obtain ⟨l₁, l₂, hsplit, hnot, hidx⟩ := jsIndexOf_spec n nodes hmem
    refine ⟨l₁, l₂, hsplit, hnot, ?_⟩
    have hne : jsIndexOf nodes n ≠ -1 := by
      rw [hidx]
      omega
    simp only [Physics.removePhysicsNode]
    rw [if_pos hne, hidx]
    rw [Int.toNat_natCast]
    rw [hsplit]
    exact eraseIdx_after_prefix n l₂ l₁

/-- Closed instance of C10: removing node 2 from `[1, 2, 2, 3]` removes
only the first occurrence, and removing an absent node throws and leaves
the list unchanged. -/
theorem removePhysicsNode_spec_witness :
    (∃ l₁ l₂, [1, 2, 2, 3] = l₁ ++ 2 :: l₂ ∧ 2 ∉ l₁ ∧
      (Physics.removePhysicsNode [1, 2, 2, 3] (JSArg.node 2)).2 = l₁ ++ l₂) ∧
    ((Physics.removePhysicsNode [1] (JSArg.node 5)).1 = none ↔ (5 : ℕ) ∈ [1]) :=
  ⟨(removePhysicsNode_spec [1, 2, 2, 3] (JSArg.node 2)).2.2.2 2 rfl (by simp),
   (removePhysicsNode_spec [1] (JSArg.node 5)).2.2.1 5 rfl⟩
